import Mathlib

/-!
Verification of the DC Clean Hands checker (dc-clean-hands-render).

The repository drives a third-party web portal through a browser, classifies
the resulting page text into a compliance verdict, optionally retrieves a PDF
certificate, and falls back to a deterministic mock result when browser
automation is unavailable or fails.

This file is a shallow embedding of the relevant source functions.  Browser
interactions are modelled by environment records whose boolean fields say
whether each page interaction succeeds, and whose string fields carry the
page text and visited URLs that the driver would report.  All pure logic
(keyword classification, the mock result generator, fallback orchestration,
session-close accounting, response assembly) is translated directly from the
Python source, file by file:

  - `hybridapi`    models src/hybridapi.py
  - `render_api`   models src/render_api.py
  - `singlefile`   models src/singlefile.py
  - `mytaxdc_agent` models src/mytaxdc_agent.py
  - `testapi`      models src/testapi.py
-/

/-- Python `pat in text` substring test, on explicit character lists. -/
def strContainsAux (pat text : List Char) : Bool :=
  (List.range (text.length + 1)).any fun i => pat.isPrefixOf (text.drop i)

/-- A regex word character (Python `\w` over ASCII): alphanumeric or underscore. -/
def isWordChar (c : Char) : Bool := c.isAlphanum || c == '_'

/-- Word-boundary condition on the left of a match: start of text or a non-word char. -/
def boundaryBefore (pre : List Char) : Bool :=
  match pre.getLast? with
  | none => true
  | some c => !isWordChar c

/-- Word-boundary condition on the right of a match: end of text or a non-word char. -/
def boundaryAfter (post : List Char) : Bool :=
  match post.head? with
  | none => true
  | some c => !isWordChar c

/-- Occurrence of the literal pattern `pat` in `text`, flanked by regex word
boundaries on both sides (models `re.search(r"\b...\b", text)` for a literal
pattern that starts and ends with word characters). -/
def wordOccursAux (pat text : List Char) : Bool :=
  (List.range (text.length + 1)).any fun i =>
    pat.isPrefixOf (text.drop i) &&
    boundaryBefore (text.take i) &&
    boundaryAfter ((text.drop i).drop pat.length)

/-- Case-insensitive bounded word search: models `re.search(r"\bpat\b", t, re.I)`
for a lowercase literal pattern, by lowercasing the subject text. -/
def reMatchWord (pat text : String) : Bool :=
  wordOccursAux pat.data (text.data.map Char.toLower)

/-- Result envelope returned by the browser and mock workflows in
src/hybridapi.py, src/render_api.py and src/railway_api.py: the dict
with keys status, message, pdf_path, session_id, mode. -/
structure Envelope where
  status : String
  message : String
  pdf_path : Option String
  session_id : String
  mode : String
deriving DecidableEq

/-- Event trace entry for the orchestration in the `/clean-hands` endpoints:
which workflow (real automation or mock fallback) was invoked. -/
inductive AttemptEvent
  | realAttempt
  | mockAttempt
deriving DecidableEq, BEq

/-- Abstract environment for one browser-automation run in src/hybridapi.py and
src/render_api.py: each boolean reports whether the corresponding page
interaction succeeds (an exception is raised when it is false), `pageText` is
the text the driver reports for the results page, and `downloadOk` says whether
the best-effort PDF download block succeeds. -/
structure BrowserEnv where
  navOk : Bool
  validateOk : Bool
  noticeOk : Bool
  last4Ok : Bool
  submitOk : Bool
  waitOk : Bool
  textOk : Bool
  pageText : String
  downloadOk : Bool
deriving DecidableEq

/-- Truthiness of an optional environment string, as Python `bool(os.getenv(x))`:
false for an unset variable and for the empty string. -/
def envTruthy : Option String → Bool
  | none => false
  | some s => !s.isEmpty

/-- Outcome record for src/hybridapi.py `send_email_via_mailgun`: the returned
status/message dict, plus whether an HTTP request to the provider was issued. -/
structure EmailSendResult where
  status : String
  message : String
  requested : Bool
deriving DecidableEq

/-- JSON response assembled by the `/clean-hands` endpoints in
src/hybridapi.py, src/render_api.py and src/testapi.py.  Keys absent from a
given endpoint's dict are `none`. -/
structure EndpointResponse where
  status : String
  notice : String
  last4 : String
  email_enqueued : Bool
  message : String
  session_id : Option String
  browser_available : Option Bool
  platform : Option String
deriving DecidableEq

namespace hybridapi

/-- Compliance detection in src/hybridapi.py lines 111-119: substring checks on
the lowercased page content, `"compliant"` tested first. -/
def detect_status (page_content : String) : String × String :=
  let lc := page_content.data.map Char.toLower
  if strContainsAux "compliant".data lc then
    ("compliant", "Certificate is compliant")
  else if strContainsAux "non-compliant".data lc || strContainsAux "noncompliant".data lc then
    ("noncompliant", "Certificate is non-compliant")
  else
    ("unknown", "Unable to determine compliance status")

/-- src/hybridapi.py `clean_hands_workflow` (lines 46-147): raises when browser
automation is unavailable; otherwise runs navigate, click-validate, fill
notice, fill last4, submit, wait, extract content, classify, best-effort PDF
download, and closes the session.  Returns the workflow outcome together with
the number of `browser_session.close()` calls performed (the except branch
closes before re-raising). -/
def clean_hands_workflow (browser_available : Bool) (env : BrowserEnv)
    (notice last4 session_id : String) : Except String Envelope × Nat :=
  if !browser_available then (.error "Browser automation not available", 0)
  else if !env.navOk then (.error "Navigation to mytax.dc.gov failed", 1)
  else if !env.validateOk then (.error "Validate link click failed", 1)
  else if !env.noticeOk then (.error "Fill notice failed", 1)
  else if !env.last4Ok then (.error "Fill last4 failed", 1)
  else if !env.submitOk then (.error "Submit click failed", 1)
  else if !env.waitOk then (.error "Wait for networkidle failed", 1)
  else if !env.textOk then (.error "Page content extraction failed", 1)
  else
    let sm := detect_status env.pageText
    let pdf := if env.downloadOk then
        some ("artifacts/clean_hands_" ++ notice ++ "_" ++ last4 ++ ".pdf")
      else none
    (.ok ⟨sm.1, sm.2, pdf, session_id, "real_browser"⟩, 1)

/-- src/hybridapi.py `mock_clean_hands_workflow` (lines 150-172): fixed
compliant envelope for the hardcoded pair, unknown envelope otherwise. -/
def mock_clean_hands_workflow (notice last4 session_id : String) : Envelope :=
  if notice = "L0014500721" ∧ last4 = "0257" then
    ⟨"compliant", "Certificate is compliant (FALLBACK RESULT - browser automation failed)",
      none, session_id, "mock_fallback"⟩
  else
    ⟨"unknown", "Fallback mock result - browser automation failed",
      none, session_id, "mock_fallback"⟩

/-- src/hybridapi.py `send_email_via_mailgun` (lines 174-217): returns the
missing-credentials error without contacting the provider when either
credential is unset or empty; otherwise issues the HTTP request, whose
abstract outcome is `http_status` (`none` models a raised exception). -/
def send_email_via_mailgun (domain api_key : Option String)
    (to_email subject html_body text_body : String)
    (http_status : Option Nat) : EmailSendResult :=
  if !(envTruthy domain && envTruthy api_key) then
    ⟨"error", "Missing Mailgun credentials", false⟩
  else
    match http_status with
    | some 200 => ⟨"success", "Email sent via Mailgun", true⟩
    | some code => ⟨"error", "Mailgun API error: " ++ toString code, true⟩
    | none => ⟨"error", "Mailgun error: " ++ to_email ++ subject ++ html_body ++ text_body, true⟩

/-- Result selection in src/hybridapi.py `hybrid_clean_hands` (lines 284-297):
one attempt at the real workflow when the browser is available, falling back to
the mock workflow on its failure; mock workflow directly otherwise.  Also
returns the trace of workflow invocations. -/
def compute_result (browser_available : Bool) (env : BrowserEnv)
    (notice last4 session_id : String) : Envelope × List AttemptEvent :=
  if browser_available then
    match (clean_hands_workflow browser_available env notice last4 session_id).1 with
    | .ok r => (r, [AttemptEvent.realAttempt])
    | .error _ =>
        (mock_clean_hands_workflow notice last4 session_id,
         [AttemptEvent.realAttempt, AttemptEvent.mockAttempt])
  else
    (mock_clean_hands_workflow notice last4 session_id, [AttemptEvent.mockAttempt])

/-- src/hybridapi.py `hybrid_clean_hands` (lines 277-310), success path:
computes the result, enqueues the email task, and assembles the JSON response
with `email_enqueued: True`. -/
def hybrid_clean_hands (browser_available : Bool) (env : BrowserEnv)
    (notice last4 : String) : EndpointResponse × List AttemptEvent :=
  let session_id := "hybrid-" ++ notice ++ "-" ++ last4
  let rt := compute_result browser_available env notice last4 session_id
  ({ status := rt.1.status, notice := notice, last4 := last4,
     email_enqueued := true,
     message := "Processed via " ++ rt.1.mode ++ " mode",
     session_id := some session_id,
     browser_available := some browser_available,
     platform := none }, rt.2)

/-- src/hybridapi.py `hybrid_clean_hands` error path (lines 312-321): the
response returned when an exception escapes the processing block, with
`email_enqueued: False` and no session_id key. -/
def error_response (notice last4 : String) (browser_available : Bool)
    (err : String) : EndpointResponse :=
  { status := "error", notice := notice, last4 := last4,
    email_enqueued := false,
    message := "Hybrid error: " ++ err,
    session_id := none,
    browser_available := some browser_available,
    platform := none }

end hybridapi

namespace render_api

/-- Compliant keyword list of src/render_api.py line 203. -/
def compliant_keywords : List String :=
  ["compliant", "valid", "current", "active", "good standing", "clear"]

/-- Non-compliant keyword list of src/render_api.py line 204. -/
def noncompliant_keywords : List String :=
  ["non-compliant", "noncompliant", "expired", "invalid", "suspended",
   "delinquent", "outstanding"]

/-- Compliance detection in src/render_api.py lines 197-215: substring checks
of the keyword lists against the lowercased page text, the compliant list
tested first. -/
def classify (page_text : String) : String × String :=
  let lt := page_text.data.map Char.toLower
  if compliant_keywords.any (fun k => strContainsAux k.data lt) then
    ("compliant", "Certificate is compliant")
  else if noncompliant_keywords.any (fun k => strContainsAux k.data lt) then
    ("noncompliant", "Certificate is non-compliant")
  else
    ("unknown", "Unable to determine compliance status")

/-- src/render_api.py `render_clean_hands_workflow` (lines 40-260): same shape
as the hybrid workflow; selector-chain stages that exhaust all candidates raise
the quoted exceptions.  Returns the outcome and the session-close count. -/
def render_clean_hands_workflow (browser_available : Bool) (env : BrowserEnv)
    (notice last4 session_id : String) : Except String Envelope × Nat :=
  if !browser_available then (.error "Browser automation not available", 0)
  else if !env.navOk then (.error "Navigation to mytax.dc.gov failed", 1)
  else if !env.validateOk then (.error "Could not find Clean Hands validation link", 1)
  else if !env.noticeOk then (.error "Could not fill notice number", 1)
  else if !env.last4Ok then (.error "Could not fill last 4 digits", 1)
  else if !env.submitOk then (.error "Could not submit form", 1)
  else if !env.waitOk then (.error "Wait for networkidle failed", 1)
  else if !env.textOk then (.error "Page text extraction failed", 1)
  else
    let sm := classify env.pageText
    let pdf := if env.downloadOk then
        some ("artifacts/clean_hands_" ++ notice ++ "_" ++ last4 ++ ".pdf")
      else none
    (.ok ⟨sm.1, sm.2, pdf, session_id, "render_browser"⟩, 1)

/-- src/render_api.py `mock_clean_hands_workflow` (lines 263-285). -/
def mock_clean_hands_workflow (notice last4 session_id : String) : Envelope :=
  if notice = "L0014500721" ∧ last4 = "0257" then
    ⟨"compliant", "Certificate is compliant (Render fallback - browser automation failed)",
      none, session_id, "render_fallback"⟩
  else
    ⟨"unknown", "Render fallback - browser automation failed",
      none, session_id, "render_fallback"⟩

/-- Result selection in src/render_api.py `render_clean_hands` (lines 442-455),
with the trace of workflow invocations. -/
def compute_result (browser_available : Bool) (env : BrowserEnv)
    (notice last4 session_id : String) : Envelope × List AttemptEvent :=
  if browser_available then
    match (render_clean_hands_workflow browser_available env notice last4 session_id).1 with
    | .ok r => (r, [AttemptEvent.realAttempt])
    | .error _ =>
        (mock_clean_hands_workflow notice last4 session_id,
         [AttemptEvent.realAttempt, AttemptEvent.mockAttempt])
  else
    (mock_clean_hands_workflow notice last4 session_id, [AttemptEvent.mockAttempt])

/-- src/render_api.py `render_clean_hands` (lines 434-469), success path. -/
def render_clean_hands (browser_available : Bool) (env : BrowserEnv)
    (notice last4 : String) : EndpointResponse × List AttemptEvent :=
  let session_id := "render-" ++ notice ++ "-" ++ last4
  let rt := compute_result browser_available env notice last4 session_id
  ({ status := rt.1.status, notice := notice, last4 := last4,
     email_enqueued := true,
     message := "Processed via " ++ rt.1.mode ++ " mode",
     session_id := some session_id,
     browser_available := some browser_available,
     platform := some "render" }, rt.2)

end render_api

namespace testapi

/-- Mock result of src/testapi.py `mock_clean_hands_workflow` (lines 24-45):
the dict has no mode key. -/
structure TestResult where
  status : String
  message : String
  pdf_path : Option String
  session_id : String
deriving DecidableEq

/-- src/testapi.py `mock_clean_hands_workflow` (lines 24-45). -/
def mock_clean_hands_workflow (notice last4 session_id : String) : TestResult :=
  if notice = "L0014500721" ∧ last4 = "0257" then
    ⟨"compliant", "Certificate is compliant (MOCK RESULT)", none, session_id⟩
  else
    ⟨"unknown", "Mock result for testing", none, session_id⟩

/-- src/testapi.py `test_clean_hands` (lines 144-166), success path. -/
def test_clean_hands (notice last4 : String) : EndpointResponse :=
  let session_id := "test-" ++ notice ++ "-" ++ last4
  let result := mock_clean_hands_workflow notice last4 session_id
  { status := result.status, notice := notice, last4 := last4,
    email_enqueued := true,
    message := "Test mode - email will be sent with mock results",
    session_id := some session_id,
    browser_available := none,
    platform := none }

end testapi

/-- Regex `\bnon[- ]?compliant\b` of src/singlefile.py line 156 and
src/mytaxdc_agent.py line 110, case-insensitive. -/
def sf_noncompliant_re (t : String) : Bool :=
  reMatchWord "noncompliant" t || reMatchWord "non-compliant" t || reMatchWord "non compliant" t

/-- Regex `\bcompliant\b` of src/singlefile.py line 158 and
src/mytaxdc_agent.py line 112, case-insensitive. -/
def sf_compliant_re (t : String) : Bool :=
  reMatchWord "compliant" t

/-- Status detection of src/singlefile.py lines 154-160 and
src/mytaxdc_agent.py lines 108-114: `bodyText = none` models a failed
`inner_text`/`text_content` call (the surrounding try/except leaves the body
text unset and the status `"unknown"`). -/
def sf_detect_status (bodyText : Option String) : String :=
  match bodyText with
  | none => "unknown"
  | some t =>
    if sf_noncompliant_re t then "noncompliant"
    else if sf_compliant_re t then "compliant"
    else "unknown"

/-- Result message of src/singlefile.py line 162 and
src/mytaxdc_agent.py lines 116-118. -/
def sf_detect_message (status : String) : String :=
  if status ≠ "unknown" then "Detected compliance status from page."
  else "Could not detect compliance status."

/-- PDF artifact path `clean-hands-{notice}-{ts}.pdf` of src/singlefile.py
line 206 and src/mytaxdc_agent.py line 169. -/
def sf_pdf_name (notice : String) (ts : Nat) : String :=
  "artifacts/clean-hands-" ++ notice ++ "-" ++ toString ts ++ ".pdf"

/-- Outcome of `popup.wait_for_event("response", predicate=is_pdf)` in
src/singlefile.py lines 222-224: a PDF response body was obtained (with its
non-emptiness), the wait timed out (triggering the in-page fetch fallback), or
another exception was raised (absorbed by the popup handler). -/
inductive RespOutcome
  | body (nonempty : Bool)
  | timeout
  | err
deriving DecidableEq

/-- Outcome of the in-page `fetch` evaluation in src/singlefile.py lines
226-236 and src/mytaxdc_agent.py lines 178-186: bytes obtained (with their
non-emptiness) or a raised exception (absorbed by the popup handler). -/
inductive EvalOutcome
  | bytes (nonempty : Bool)
  | err
deriving DecidableEq

/-- Abstract page environment for the certificate retrieval sub-flow
(src/singlefile.py lines 164-250, src/mytaxdc_agent.py lines 122-198):
which controls resolve, whether each click succeeds, the URLs the driver
reports after each navigation, and the outcomes of the two download
strategies. -/
structure CertEnv where
  reqLinkFound : Bool
  reqClickOk : Bool
  reqUrl : String
  nextBtnFound : Bool
  nextClickOk : Bool
  nextUrl : String
  submitBtnFound : Bool
  submitClickOk : Bool
  submitUrl : String
  viewLinkFound : Bool
  directDownloadOk : Bool
  popupOk : Bool
  popupUrl : String
  resp : RespOutcome
  eval : EvalOutcome
deriving DecidableEq

/-- Request/Next/Submit stage of the certificate sub-flow (src/singlefile.py
lines 165-193, src/mytaxdc_agent.py lines 123-152): each control is clicked
only if its locator resolves; a click failure raises to the enclosing
try/except.  `Except.error urls` carries the URLs appended before the raise
(the enclosing handler keeps them and skips the rest of the sub-flow);
`Except.ok urls` carries the URLs appended on the way to the view stage. -/
def cert_pre_view (c : CertEnv) : Except (List String) (List String) :=
  if c.reqLinkFound then
    if !c.reqClickOk then .error []
    else
      let u1 := [c.reqUrl]
      if c.nextBtnFound && !c.nextClickOk then .error u1
      else
        let u2 := u1 ++ (if c.nextBtnFound then [c.nextUrl] else [])
        if c.submitBtnFound && !c.submitClickOk then .error u2
        else .ok (u2 ++ (if c.submitBtnFound then [c.submitUrl] else []))
  else .ok []

/-- View-certificate stage of src/singlefile.py lines 195-246: direct download
first; on its failure a popup fallback that records the popup URL and obtains
the PDF bytes from a response event or, on timeout, from an in-page fetch.
Returns the URLs appended and the resulting pdf path. -/
def cert_view_stage (notice : String) (ts : Nat) (c : CertEnv) :
    List String × Option String :=
  if !c.viewLinkFound then ([], none)
  else if c.directDownloadOk then ([], some (sf_pdf_name notice ts))
  else if !c.popupOk then ([], none)
  else
    match c.resp with
    | .body nonempty => ([c.popupUrl], if nonempty then some (sf_pdf_name notice ts) else none)
    | .timeout =>
      match c.eval with
      | .bytes nonempty => ([c.popupUrl], if nonempty then some (sf_pdf_name notice ts) else none)
      | .err => ([c.popupUrl], none)
    | .err => ([c.popupUrl], none)

/-- Certificate retrieval sub-flow of src/singlefile.py lines 164-250: the
whole block sits in a try/except whose handler discards the exception, so a
failure in the request stage yields the URLs appended so far and no pdf. -/
def cert_subflow (notice : String) (ts : Nat) (c : CertEnv) :
    List String × Option String :=
  match cert_pre_view c with
  | .error urls => (urls, none)
  | .ok urls =>
    let v := cert_view_stage notice ts c
    (urls ++ v.1, v.2)

/-- View-certificate stage of src/mytaxdc_agent.py lines 157-195: direct
download first; on its failure a new-tab fallback that records the tab URL and
fetches the PDF bytes in the page context. -/
def mytax_cert_view (notice : String) (ts : Nat) (c : CertEnv) :
    List String × Option String :=
  if !c.viewLinkFound then ([], none)
  else if c.directDownloadOk then ([], some (sf_pdf_name notice ts))
  else if !c.popupOk then ([], none)
  else
    match c.eval with
    | .bytes nonempty => ([c.popupUrl], if nonempty then some (sf_pdf_name notice ts) else none)
    | .err => ([c.popupUrl], none)

/-- Certificate retrieval sub-flow of src/mytaxdc_agent.py lines 122-198,
with the same absorbing try/except as the singlefile version. -/
def mytax_cert_subflow (notice : String) (ts : Nat) (c : CertEnv) :
    List String × Option String :=
  match cert_pre_view c with
  | .error urls => (urls, none)
  | .ok urls =>
    let v := mytax_cert_view notice ts c
    (urls ++ v.1, v.2)

namespace singlefile

/-- Workflow result dict of src/singlefile.py lines 71-79 (serialized as the
`extracted_content` JSON of the returned ActionResult). -/
structure SFResult where
  status : String
  message : String
  screenshot_path : Option String
  pdf_path : Option String
  urls : List String
  notice : String
  last4 : String
deriving DecidableEq

/-- Abstract environment for one run of src/singlefile.py
`clean_hands_workflow`: outcomes of the guarded navigation and form steps, the
body text extracted for classification (`none` when extraction raises), the
URLs the driver reports, the timestamp used in the artifact name, and the
certificate sub-flow environment. -/
structure SFEnv where
  openOk : Bool
  validateOk : Bool
  validateRetryOk : Bool
  formOk : Bool
  bodyText : Option String
  siteUrl : String
  validateUrl : String
  ts : Nat
  cert : CertEnv
deriving DecidableEq

/-- src/singlefile.py `clean_hands_workflow` (lines 56-252): open site (error
on failure), click the validate link with one scroll-and-retry (error when both
attempts fail), fill the form and search (error on failure), detect the status
from the body text, run the absorbing certificate sub-flow, and assemble the
result dict. -/
def clean_hands_workflow (env : SFEnv) (notice last4 : String) :
    Except String SFResult :=
  if !env.openOk then .error "Failed to open site"
  else
    let urls0 := [env.siteUrl]
    if !env.validateOk && !env.validateRetryOk then
      .error "Failed to find/click Validate a Certificate of Clean Hands"
    else
      let urls1 := urls0 ++ [env.validateUrl]
      if !env.formOk then .error "Failed to fill form/search"
      else
        let status := sf_detect_status env.bodyText
        let cert := cert_subflow notice env.ts env.cert
        .ok { status := status,
              message := sf_detect_message status,
              screenshot_path := none,
              pdf_path := cert.2,
              urls := urls1 ++ cert.1,
              notice := notice,
              last4 := last4 }

/-- The steps of src/singlefile.py `clean_hands_workflow` preceding status
detection all succeed (site opened, validate link clicked on first or retry
attempt, form filled and searched). -/
def pre_ok (env : SFEnv) : Bool :=
  env.openOk && (env.validateOk || env.validateRetryOk) && env.formOk

/-- URLs recorded by src/singlefile.py `clean_hands_workflow` before the
certificate sub-flow runs. -/
def pre_urls (env : SFEnv) : List String :=
  [env.siteUrl, env.validateUrl]

/-- JSON response of src/singlefile.py `run_clean_hands` (lines 387-392). -/
structure SFResponse where
  status : String
  notice : String
  last4 : String
  email_enqueued : Bool
deriving DecidableEq

/-- src/singlefile.py `run_clean_hands` (lines 310-392): runs the workflow
with the session closed in a `finally` block (whose own exceptions are
swallowed), raises `HTTPException(500, ar.error)` when the workflow reported
an error, and otherwise enqueues the email and returns the response with
`email_enqueued: True`.  The second component counts `session.close()`
invocations; `Except.error` models the HTTP 500 carrying the raw error
detail. -/
def run_clean_hands (env : SFEnv) (notice last4 : String) :
    Except String SFResponse × Nat :=
  match clean_hands_workflow env notice last4 with
  | .error e => (.error e, 1)
  | .ok r => (.ok { status := r.status, notice := notice, last4 := last4,
                    email_enqueued := true }, 1)

end singlefile

namespace mytaxdc_agent

/-- Outcome of the controller action src/mytaxdc_agent.py
`clean_hands_workflow`: an exception that escapes the action (unguarded
steps), an `ActionResult(error=...)` return, or a completed result. -/
inductive MTOutcome
  | raised (e : String)
  | actionError (e : String)
  | done (r : singlefile.SFResult)
deriving DecidableEq

/-- Abstract environment for one run of src/mytaxdc_agent.py
`clean_hands_workflow`.  `gotoOk` and `waitsOk` cover the unguarded awaits
(the initial goto at line 57, the load wait at line 76 and the settle wait at
line 102), whose failures escape the action; the remaining fields mirror the
singlefile environment. -/
structure MTEnv where
  gotoOk : Bool
  validateOk : Bool
  validateRetryOk : Bool
  waitsOk : Bool
  formOk : Bool
  bodyText : Option String
  siteUrl : String
  validateUrl : String
  ts : Nat
  cert : CertEnv
deriving DecidableEq

/-- src/mytaxdc_agent.py `clean_hands_workflow` (lines 21-204): unguarded
goto (raises on failure), guarded validate click with one scroll-and-retry
(ActionResult error when both fail), unguarded load/settle waits (raise on
failure), guarded form fill (ActionResult error on failure), status detection
from the body text, absorbing certificate sub-flow, and result assembly. -/
def clean_hands_workflow (env : MTEnv) (notice last4 : String) : MTOutcome :=
  if !env.gotoOk then .raised "goto mytax.dc.gov failed"
  else
    let urls0 := [env.siteUrl]
    if !env.validateOk && !env.validateRetryOk then
      .actionError "Failed to find/click Validate a Certificate of Clean Hands"
    else if !env.waitsOk then .raised "wait_for_load_state failed"
    else
      let urls1 := urls0 ++ [env.validateUrl]
      if !env.formOk then .actionError "Failed to fill form"
      else
        let status := sf_detect_status env.bodyText
        let cert := mytax_cert_subflow notice env.ts env.cert
        .done { status := status,
                message := sf_detect_message status,
                screenshot_path := none,
                pdf_path := cert.2,
                urls := urls1 ++ cert.1,
                notice := notice,
                last4 := last4 }

/-- The steps of src/mytaxdc_agent.py `clean_hands_workflow` preceding status
detection all succeed. -/
def pre_ok (env : MTEnv) : Bool :=
  env.gotoOk && (env.validateOk || env.validateRetryOk) && env.waitsOk && env.formOk

/-- URLs recorded by src/mytaxdc_agent.py `clean_hands_workflow` before the
certificate sub-flow runs. -/
def pre_urls (env : MTEnv) : List String :=
  [env.siteUrl, env.validateUrl]

end mytaxdc_agent


/-- A certificate sub-flow environment in which no control resolves and every
download strategy fails. -/
def certAllFail : CertEnv :=
  ⟨false, false, "", false, false, "", false, false, "", false, false, false, "",
   RespOutcome.err, EvalOutcome.err⟩

/-- A certificate sub-flow environment in which the request link resolves and
is clicked, but the view-certificate download is forced to fail (no download
event, no popup). -/
def certDownloadFail : CertEnv :=
  ⟨true, true, "url-request", false, false, "", false, false, "", true, false, false, "",
   RespOutcome.err, EvalOutcome.err⟩

/-- A singlefile run whose navigation, validate-click and form steps all
succeed and whose results page reads "Compliant". -/
def sfEnvOkW : singlefile.SFEnv :=
  ⟨true, true, false, true, some "Compliant", "url-site", "url-validate", 0, certDownloadFail⟩

/-- A singlefile run whose initial site navigation fails. -/
def sfEnvOpenFail : singlefile.SFEnv :=
  ⟨false, false, false, false, none, "", "", 0, certAllFail⟩

/-- A mytaxdc_agent run whose guarded and unguarded steps before status
detection all succeed and whose results page reads "Compliant". -/
def mtEnvOkW : mytaxdc_agent.MTEnv :=
  ⟨true, true, false, true, true, some "Compliant", "url-site", "url-validate", 0, certDownloadFail⟩

/-- A browser environment whose initial navigation fails (every later step
flag is irrelevant). -/
def browserEnvNavFail : BrowserEnv :=
  ⟨false, true, true, true, true, true, true, "", false⟩

theorem hybrid_workflow_ok_shape (ba : Bool) (env : BrowserEnv)
    (notice last4 session_id : String) (r : Envelope)
    (h : (hybridapi.clean_hands_workflow ba env notice last4 session_id).1 = .ok r) :
    r.mode = "real_browser" ∧ r.status = (hybridapi.detect_status env.pageText).1 := by
  unfold hybridapi.clean_hands_workflow at h
  split_ifs at h <;> simp_all <;> subst h <;> exact ⟨rfl, rfl⟩

theorem render_workflow_ok_shape (ba : Bool) (env : BrowserEnv)
    (notice last4 session_id : String) (r : Envelope)
    (h : (render_api.render_clean_hands_workflow ba env notice last4 session_id).1 = .ok r) :
    r.mode = "render_browser" ∧ r.status = (render_api.classify env.pageText).1 := by
  unfold render_api.render_clean_hands_workflow at h
  split_ifs at h <;> simp_all <;> subst h <;> exact ⟨rfl, rfl⟩

theorem hybrid_mock_fields (notice last4 session_id : String) :
    (hybridapi.mock_clean_hands_workflow notice last4 session_id).mode = "mock_fallback" ∧
    (hybridapi.mock_clean_hands_workflow notice last4 session_id).pdf_path = none ∧
    ((hybridapi.mock_clean_hands_workflow notice last4 session_id).status = "compliant" ∨
     (hybridapi.mock_clean_hands_workflow notice last4 session_id).status = "unknown") := by
  unfold hybridapi.mock_clean_hands_workflow
  split <;> simp

theorem render_mock_fields (notice last4 session_id : String) :
    (render_api.mock_clean_hands_workflow notice last4 session_id).mode = "render_fallback" ∧
    (render_api.mock_clean_hands_workflow notice last4 session_id).pdf_path = none ∧
    ((render_api.mock_clean_hands_workflow notice last4 session_id).status = "compliant" ∨
     (render_api.mock_clean_hands_workflow notice last4 session_id).status = "unknown") := by
  unfold render_api.mock_clean_hands_workflow
  split <;> simp

theorem hybrid_detect_status_cases (t : String) :
    (hybridapi.detect_status t).1 = "compliant" ∨
    (hybridapi.detect_status t).1 = "noncompliant" ∨
    (hybridapi.detect_status t).1 = "unknown" := by
  simp only [hybridapi.detect_status]
  split_ifs <;> simp

/-- C1 counterexample.  The claim states that the Compliance Classifier checks
the non-compliant keyword set before the compliant set, so that text
containing keywords from both sets is classified NonCompliant and never
Compliant.  The spec's own example text "current status: non-compliant;
account active" contains a non-compliant keyword and compliant keywords, yet
the classifier of src/render_api.py (cited by the claim) classifies it
"compliant", because that classifier checks the compliant keyword set
first. -/
theorem C1_counterexample :
    (render_api.noncompliant_keywords.any fun k =>
      strContainsAux k.data ("current status: non-compliant; account active".data.map Char.toLower)) = true ∧
    (render_api.compliant_keywords.any fun k =>
      strContainsAux k.data ("current status: non-compliant; account active".data.map Char.toLower)) = true ∧
    (render_api.classify "current status: non-compliant; account active").1 = "compliant" := by
  refine ⟨by decide, by decide, by decide⟩

/-- C1 amended.  Classifier precedence is inconsistent across the repository:
the classifier of src/singlefile.py checks the non-compliant pattern first, so
any text matching it (even one also matching the compliant pattern) is
classified noncompliant; but the classifier of src/render_api.py checks the
compliant keyword set first, so any text containing a compliant keyword (even
one also containing a non-compliant keyword) is classified compliant. -/
theorem C1_classifier_precedence_amended (t : String) :
    (sf_noncompliant_re t = true → sf_detect_status (some t) = "noncompliant") ∧
    ((render_api.compliant_keywords.any fun k =>
        strContainsAux k.data (t.data.map Char.toLower)) = true →
      (render_api.classify t).1 = "compliant") := by
  constructor
  · intro h
    simp [sf_detect_status, h]
  · intro h
    simp [render_api.classify, h]

/-- C1 amended witness: both precedence facts evaluated on the spec's example
text, which matches the non-compliant pattern and contains compliant
keywords. -/
theorem C1_classifier_precedence_amended_witness :
    sf_detect_status (some "current status: non-compliant; account active") = "noncompliant" ∧
    (render_api.classify "current status: non-compliant; account active").1 = "compliant" :=
  ⟨(C1_classifier_precedence_amended "current status: non-compliant; account active").1 (by decide),
   (C1_classifier_precedence_amended "current status: non-compliant; account active").2 (by decide)⟩

/-- C8 counterexample.  The claim states that for text with no keyword from
either set the classifier returns Unknown with the message "Could not detect
compliance status".  The classifier of src/render_api.py (cited by the claim)
returns the message "Unable to determine compliance status" instead, shown
here on the spec's own example text, which contains no keyword from either
list. -/
theorem C8_counterexample :
    (render_api.compliant_keywords.any fun k =>
      strContainsAux k.data ("we could not process your request".data.map Char.toLower)) = false ∧
    (render_api.noncompliant_keywords.any fun k =>
      strContainsAux k.data ("we could not process your request".data.map Char.toLower)) = false ∧
    render_api.classify "we could not process your request" =
      ("unknown", "Unable to determine compliance status") ∧
    (("Unable to determine compliance status" : String) ==
      "Could not detect compliance status") = false := by
  refine ⟨by decide, by decide, by decide, by decide⟩

/-- C8 amended.  Text with no keyword from either set is classified Unknown by
every classifier, but the accompanying message differs per file: the message
is "Could not detect compliance status." (with a trailing period) in
src/singlefile.py and "Unable to determine compliance status" in
src/render_api.py. -/
theorem C8_unknown_message_amended (t : String)
    (h1 : sf_noncompliant_re t = false) (h2 : sf_compliant_re t = false)
    (h3 : (render_api.compliant_keywords.any fun k =>
      strContainsAux k.data (t.data.map Char.toLower)) = false)
    (h4 : (render_api.noncompliant_keywords.any fun k =>
      strContainsAux k.data (t.data.map Char.toLower)) = false) :
    sf_detect_status (some t) = "unknown" ∧
    sf_detect_message (sf_detect_status (some t)) = "Could not detect compliance status." ∧
    render_api.classify t = ("unknown", "Unable to determine compliance status") := by
  have hst : sf_detect_status (some t) = "unknown" := by
    simp [sf_detect_status, h1, h2]
  refine ⟨hst, ?_, ?_⟩
  · rw [hst]
    simp [sf_detect_message]
  · simp [render_api.classify, h3, h4]

/-- C8 amended witness: the amended statement evaluated on the spec's example
text, which contains no keyword from either set. -/
theorem C8_unknown_message_amended_witness :
    sf_detect_status (some "we could not process your request") = "unknown" ∧
    sf_detect_message (sf_detect_status (some "we could not process your request")) =
      "Could not detect compliance status." ∧
    render_api.classify "we could not process your request" =
      ("unknown", "Unable to determine compliance status") :=
  C8_unknown_message_amended "we could not process your request"
    (by decide) (by decide) (by decide) (by decide)

/-- C2 counterexample.  The claim states that for well-formed input the
clean-hands endpoint always returns a verdict and converts every workflow
error into a MockFallback result.  The `/clean-hands` endpoint of
src/singlefile.py (cited by the claim), on the well-formed input
notice "L0014500721" / last4 "0257" with a failed site navigation, raises
`HTTPException(500, ar.error)` — surfacing the raw workflow error with no
verdict and no mock fallback. -/
theorem C2_counterexample :
    (singlefile.run_clean_hands sfEnvOpenFail "L0014500721" "0257").1 =
      Except.error "Failed to open site" := rfl

/-- C2 amended.  In src/hybridapi.py the endpoint's result always carries one
of the three verdicts and every failure of the real-automation workflow is
converted into the mock-fallback result; but in src/singlefile.py a workflow
error is surfaced to the caller as an HTTP 500 carrying the raw error detail,
with no verdict and no mock fallback. -/
theorem C2_error_handling_amended (ba : Bool) (henv : BrowserEnv)
    (sfenv : singlefile.SFEnv) (notice last4 session_id : String) :
    ((hybridapi.compute_result ba henv notice last4 session_id).1.status = "compliant" ∨
     (hybridapi.compute_result ba henv notice last4 session_id).1.status = "noncompliant" ∨
     (hybridapi.compute_result ba henv notice last4 session_id).1.status = "unknown") ∧
    (∀ err, (hybridapi.clean_hands_workflow ba henv notice last4 session_id).1 = .error err →
      (hybridapi.compute_result ba henv notice last4 session_id).1 =
        hybridapi.mock_clean_hands_workflow notice last4 session_id ∧
      (hybridapi.compute_result ba henv notice last4 session_id).1.mode = "mock_fallback") ∧
    (∀ err, singlefile.clean_hands_workflow sfenv notice last4 = .error err →
      (singlefile.run_clean_hands sfenv notice last4).1 = .error err) := by
  refine ⟨?_, ?_, ?_⟩
  · cases ba with
    | false =>
      simp only [hybridapi.compute_result, Bool.false_eq_true, if_false]
      rcases (hybrid_mock_fields notice last4 session_id).2.2 with h | h
      · exact Or.inl h
      · exact Or.inr (Or.inr h)
    | true =>
      rcases hw : (hybridapi.clean_hands_workflow true henv notice last4 session_id).1 with e | r
      · simp only [hybridapi.compute_result, if_true, hw]
        rcases (hybrid_mock_fields notice last4 session_id).2.2 with h | h
        · exact Or.inl h
        · exact Or.inr (Or.inr h)
      · simp only [hybridapi.compute_result, if_true, hw]
        rcases hybrid_detect_status_cases henv.pageText with h | h | h <;>
          rw [(hybrid_workflow_ok_shape true henv notice last4 session_id r hw).2]
        · exact Or.inl h
        · exact Or.inr (Or.inl h)
        · exact Or.inr (Or.inr h)
  · intro err hw
    cases ba with
    | false =>
      exact ⟨by simp [hybridapi.compute_result],
        by simp [hybridapi.compute_result, (hybrid_mock_fields notice last4 session_id).1]⟩
    | true =>
      refine ⟨by simp [hybridapi.compute_result, hw], ?_⟩
      simp [hybridapi.compute_result, hw, (hybrid_mock_fields notice last4 session_id).1]
  · intro err hw
    simp [singlefile.run_clean_hands, hw]

/-- C2 amended witness: the amended statement evaluated with a failed
navigation in both workflows. -/
theorem C2_error_handling_amended_witness :
    ((hybridapi.compute_result true browserEnvNavFail "L0014500721" "0257" "sid").1 =
       hybridapi.mock_clean_hands_workflow "L0014500721" "0257" "sid" ∧
     (hybridapi.compute_result true browserEnvNavFail "L0014500721" "0257" "sid").1.mode =
       "mock_fallback") ∧
    (singlefile.run_clean_hands sfEnvOpenFail "L0014500721" "0257").1 =
      Except.error "Failed to open site" :=
  ⟨(C2_error_handling_amended true browserEnvNavFail sfEnvOpenFail "L0014500721" "0257" "sid").2.1
      "Navigation to mytax.dc.gov failed" rfl,
   (C2_error_handling_amended true browserEnvNavFail sfEnvOpenFail "L0014500721" "0257" "sid").2.2
      "Failed to open site" rfl⟩

/-- C3 confirmed.  The mock result generators of src/hybridapi.py and
src/render_api.py are deterministic in (notice, last4): the verdict, mode and
message do not depend on the session id, the hardcoded pair
("L0014500721", "0257") yields a compliant envelope in mock-fallback mode,
and every other pair yields an unknown envelope in mock-fallback mode with
the explanatory fallback message. -/
theorem C3_mock_generator_deterministic (notice last4 sid sid2 : String) :
    (hybridapi.mock_clean_hands_workflow notice last4 sid).status =
      (if notice = "L0014500721" ∧ last4 = "0257" then "compliant" else "unknown") ∧
    (hybridapi.mock_clean_hands_workflow notice last4 sid).mode = "mock_fallback" ∧
    (hybridapi.mock_clean_hands_workflow notice last4 sid).message =
      (if notice = "L0014500721" ∧ last4 = "0257" then
        "Certificate is compliant (FALLBACK RESULT - browser automation failed)"
       else "Fallback mock result - browser automation failed") ∧
    (hybridapi.mock_clean_hands_workflow notice last4 sid).status =
      (hybridapi.mock_clean_hands_workflow notice last4 sid2).status ∧
    (render_api.mock_clean_hands_workflow notice last4 sid).status =
      (if notice = "L0014500721" ∧ last4 = "0257" then "compliant" else "unknown") ∧
    (render_api.mock_clean_hands_workflow notice last4 sid).mode = "render_fallback" ∧
    (render_api.mock_clean_hands_workflow notice last4 sid).message =
      (if notice = "L0014500721" ∧ last4 = "0257" then
        "Certificate is compliant (Render fallback - browser automation failed)"
       else "Render fallback - browser automation failed") ∧
    (render_api.mock_clean_hands_workflow notice last4 sid).status =
      (render_api.mock_clean_hands_workflow notice last4 sid2).status := by
  unfold hybridapi.mock_clean_hands_workflow render_api.mock_clean_hands_workflow
  split_ifs <;> simp

/-- C9 confirmed.  Every mock fallback workflow in the repository returns an
envelope with no pdf path, for every input pair and session id: the mock path
never produces or references a PDF certificate. -/
theorem C9_mock_no_pdf (notice last4 session_id : String) :
    (hybridapi.mock_clean_hands_workflow notice last4 session_id).pdf_path = none ∧
    (render_api.mock_clean_hands_workflow notice last4 session_id).pdf_path = none ∧
    (testapi.mock_clean_hands_workflow notice last4 session_id).pdf_path = none := by
  unfold hybridapi.mock_clean_hands_workflow render_api.mock_clean_hands_workflow
    testapi.mock_clean_hands_workflow
  split_ifs <;> simp

/-- C4 confirmed.  Each request through the hybrid and render endpoints
produces exactly one result envelope, whose mode is the real-automation mode
exactly when the real workflow succeeded and returned that very envelope, and
the mock-fallback mode exactly when the envelope is the mock generator's
output — never both modes, never neither, and never a mix of real and mock
fields. -/
theorem C4_exactly_one_result_envelope (ba : Bool) (henv renv : BrowserEnv)
    (notice last4 session_id : String) :
    (((hybridapi.compute_result ba henv notice last4 session_id).1.mode = "real_browser" ∧
       (hybridapi.clean_hands_workflow ba henv notice last4 session_id).1 =
         .ok (hybridapi.compute_result ba henv notice last4 session_id).1) ∨
     ((hybridapi.compute_result ba henv notice last4 session_id).1.mode = "mock_fallback" ∧
       (hybridapi.compute_result ba henv notice last4 session_id).1 =
         hybridapi.mock_clean_hands_workflow notice last4 session_id)) ∧
    ((((hybridapi.compute_result ba henv notice last4 session_id).1.mode == "real_browser") ^^
      ((hybridapi.compute_result ba henv notice last4 session_id).1.mode == "mock_fallback")) = true) ∧
    (((render_api.compute_result ba renv notice last4 session_id).1.mode = "render_browser" ∧
       (render_api.render_clean_hands_workflow ba renv notice last4 session_id).1 =
         .ok (render_api.compute_result ba renv notice last4 session_id).1) ∨
     ((render_api.compute_result ba renv notice last4 session_id).1.mode = "render_fallback" ∧
       (render_api.compute_result ba renv notice last4 session_id).1 =
         render_api.mock_clean_hands_workflow notice last4 session_id)) ∧
    ((((render_api.compute_result ba renv notice last4 session_id).1.mode == "render_browser") ^^
      ((render_api.compute_result ba renv notice last4 session_id).1.mode == "render_fallback")) = true) := by
  have hybrid : ((hybridapi.compute_result ba henv notice last4 session_id).1.mode = "real_browser" ∧
       (hybridapi.clean_hands_workflow ba henv notice last4 session_id).1 =
         .ok (hybridapi.compute_result ba henv notice last4 session_id).1) ∨
     ((hybridapi.compute_result ba henv notice last4 session_id).1.mode = "mock_fallback" ∧
       (hybridapi.compute_result ba henv notice last4 session_id).1 =
         hybridapi.mock_clean_hands_workflow notice last4 session_id) := by
    cases ba with
    | false =>
      refine Or.inr ⟨?_, by simp [hybridapi.compute_result]⟩
      simp [hybridapi.compute_result, (hybrid_mock_fields notice last4 session_id).1]
    | true =>
      rcases hw : (hybridapi.clean_hands_workflow true henv notice last4 session_id).1 with e | r
      · refine Or.inr ⟨?_, by simp [hybridapi.compute_result, hw]⟩
        simp [hybridapi.compute_result, hw, (hybrid_mock_fields notice last4 session_id).1]
      · refine Or.inl ⟨?_, ?_⟩
        · simp [hybridapi.compute_result, hw,
            (hybrid_workflow_ok_shape true henv notice last4 session_id r hw).1]
        · simp [hybridapi.compute_result, hw]
  have render : ((render_api.compute_result ba renv notice last4 session_id).1.mode = "render_browser" ∧
       (render_api.render_clean_hands_workflow ba renv notice last4 session_id).1 =
         .ok (render_api.compute_result ba renv notice last4 session_id).1) ∨
     ((render_api.compute_result ba renv notice last4 session_id).1.mode = "render_fallback" ∧
       (render_api.compute_result ba renv notice last4 session_id).1 =
         render_api.mock_clean_hands_workflow notice last4 session_id) := by
    cases ba with
    | false =>
      refine Or.inr ⟨?_, by simp [render_api.compute_result]⟩
      simp [render_api.compute_result, (render_mock_fields notice last4 session_id).1]
    | true =>
      rcases hw : (render_api.render_clean_hands_workflow true renv notice last4 session_id).1 with e | r
      · refine Or.inr ⟨?_, by simp [render_api.compute_result, hw]⟩
        simp [render_api.compute_result, hw, (render_mock_fields notice last4 session_id).1]
      · refine Or.inl ⟨?_, ?_⟩
        · simp [render_api.compute_result, hw,
            (render_workflow_ok_shape true renv notice last4 session_id r hw).1]
        · simp [render_api.compute_result, hw]
  refine ⟨hybrid, ?_, render, ?_⟩
  · rcases hybrid with ⟨h, _⟩ | ⟨h, _⟩ <;> rw [h] <;> decide
  · rcases render with ⟨h, _⟩ | ⟨h, _⟩ <;> rw [h] <;> decide

/-- C6 confirmed.  For every terminal path of a run that acquired a browser
session, the session close is invoked exactly once before the run returns: in
src/hybridapi.py `clean_hands_workflow` (close on the success path and in the
except handler before re-raising) and in src/singlefile.py `run_clean_hands`
(close in the finally block, on both the success and the HTTP-500 path). -/
theorem C6_session_close_once (henv : BrowserEnv) (sfenv : singlefile.SFEnv)
    (notice last4 session_id : String) :
    (hybridapi.clean_hands_workflow true henv notice last4 session_id).2 = 1 ∧
    (singlefile.run_clean_hands sfenv notice last4).2 = 1 := by
  constructor
  · unfold hybridapi.clean_hands_workflow
    split_ifs <;> simp_all
  · rcases hw : singlefile.clean_hands_workflow sfenv notice last4 with e | r <;>
      simp [singlefile.run_clean_hands, hw]

/-- C7 confirmed.  The hybrid and render endpoints invoke the real-automation
workflow at most once per request; when the real attempt fails (or the browser
is unavailable) the trace goes directly to the single mock attempt, with no
retry of the whole workflow. -/
theorem C7_single_real_attempt (ba : Bool) (henv renv : BrowserEnv)
    (notice last4 session_id : String) :
    (hybridapi.compute_result ba henv notice last4 session_id).2.count AttemptEvent.realAttempt ≤ 1 ∧
    (render_api.compute_result ba renv notice last4 session_id).2.count AttemptEvent.realAttempt ≤ 1 ∧
    (∀ e, (hybridapi.clean_hands_workflow ba henv notice last4 session_id).1 = .error e →
      (hybridapi.compute_result ba henv notice last4 session_id).2 =
        if ba then [AttemptEvent.realAttempt, AttemptEvent.mockAttempt]
        else [AttemptEvent.mockAttempt]) ∧
    (∀ e, (render_api.render_clean_hands_workflow ba renv notice last4 session_id).1 = .error e →
      (render_api.compute_result ba renv notice last4 session_id).2 =
        if ba then [AttemptEvent.realAttempt, AttemptEvent.mockAttempt]
        else [AttemptEvent.mockAttempt]) := by
  refine ⟨?_, ?_, ?_, ?_⟩
  · cases ba with
    | false =>
      simp [hybridapi.compute_result]
      decide
    | true =>
      rcases hw : (hybridapi.clean_hands_workflow true henv notice last4 session_id).1 with e | r <;>
        simp [hybridapi.compute_result, hw, List.count_cons] <;> decide
  · cases ba with
    | false =>
      simp [render_api.compute_result]
      decide
    | true =>
      rcases hw : (render_api.render_clean_hands_workflow true renv notice last4 session_id).1 with e | r <;>
        simp [render_api.compute_result, hw, List.count_cons] <;> decide
  · intro e hw
    cases ba with
    | false => simp [hybridapi.compute_result]
    | true => simp [hybridapi.compute_result, hw]
  · intro e hw
    cases ba with
    | false => simp [render_api.compute_result]
    | true => simp [render_api.compute_result, hw]

/-- C7 witness: with the browser available and a failed navigation, both
endpoints perform one real attempt followed directly by the mock attempt. -/
theorem C7_single_real_attempt_witness :
    (hybridapi.compute_result true browserEnvNavFail "N12345" "0257" "sid").2 =
      [AttemptEvent.realAttempt, AttemptEvent.mockAttempt] ∧
    (render_api.compute_result true browserEnvNavFail "N12345" "0257" "sid").2 =
      [AttemptEvent.realAttempt, AttemptEvent.mockAttempt] := by
  have h := C7_single_real_attempt true browserEnvNavFail browserEnvNavFail "N12345" "0257" "sid"
  exact ⟨by simpa using h.2.2.1 "Navigation to mytax.dc.gov failed" rfl,
         by simpa using h.2.2.2 "Navigation to mytax.dc.gov failed" rfl⟩

/-- C10 confirmed.  Every request that produces a result yields a response
with `email_enqueued = true` in src/hybridapi.py and src/testapi.py,
regardless of whether the email-provider credentials are configured — with
unset or empty Mailgun credentials the enqueued task returns the
missing-credentials error without issuing any HTTP request; `email_enqueued =
false` occurs only in the error-path response where no result was produced. -/
theorem C10_email_enqueued (ba : Bool) (env : BrowserEnv) (notice last4 err : String)
    (domain api_key : Option String) (to_email subject html_body text_body : String)
    (http_status : Option Nat)
    (hcred : envTruthy domain = false ∨ envTruthy api_key = false) :
    (hybridapi.hybrid_clean_hands ba env notice last4).1.email_enqueued = true ∧
    (testapi.test_clean_hands notice last4).email_enqueued = true ∧
    (hybridapi.error_response notice last4 ba err).email_enqueued = false ∧
    (hybridapi.send_email_via_mailgun domain api_key to_email subject html_body text_body
      http_status).requested = false ∧
    (hybridapi.send_email_via_mailgun domain api_key to_email subject html_body text_body
      http_status).status = "error" := by
  refine ⟨rfl, rfl, rfl, ?_, ?_⟩ <;>
    rcases hcred with h | h <;>
    simp [hybridapi.send_email_via_mailgun, h]

/-- C10 witness: the statement evaluated with an unset Mailgun domain. -/
theorem C10_email_enqueued_witness :
    (hybridapi.hybrid_clean_hands true browserEnvNavFail "N12345" "0257").1.email_enqueued = true ∧
    (testapi.test_clean_hands "N12345" "0257").email_enqueued = true ∧
    (hybridapi.error_response "N12345" "0257" true "oops").email_enqueued = false ∧
    (hybridapi.send_email_via_mailgun none (some "key-abc") "user@example.com" "subject"
      "html" "text" (some 200)).requested = false ∧
    (hybridapi.send_email_via_mailgun none (some "key-abc") "user@example.com" "subject"
      "html" "text" (some 200)).status = "error" :=
  C10_email_enqueued true browserEnvNavFail "N12345" "0257" "oops" none (some "key-abc")
    "user@example.com" "subject" "html" "text" (some 200) (Or.inl rfl)

/-- C5 confirmed.  In both src/singlefile.py and src/mytaxdc_agent.py, once
the steps preceding status detection succeed the workflow always completes
(the certificate retrieval sub-flow never fails it), and for every certificate
sub-flow environment — any absent control, failed click or failed download —
the result's verdict and message are exactly the classifier's output for the
extracted body text, and the visited URLs extend the pre-sub-flow URLs: the
sub-flow's only observable effects are the pdf path and appended URLs. -/
theorem C5_cert_subflow_frame (env : singlefile.SFEnv) (menv : mytaxdc_agent.MTEnv)
    (c : CertEnv) (notice last4 : String)
    (h1 : singlefile.pre_ok env = true) (h2 : mytaxdc_agent.pre_ok menv = true) :
    (∃ r, singlefile.clean_hands_workflow {env with cert := c} notice last4 = Except.ok r ∧
      r.status = sf_detect_status env.bodyText ∧
      r.message = sf_detect_message (sf_detect_status env.bodyText) ∧
      ∃ suffix, r.urls = singlefile.pre_urls env ++ suffix) ∧
    (∃ r, mytaxdc_agent.clean_hands_workflow {menv with cert := c} notice last4 =
        mytaxdc_agent.MTOutcome.done r ∧
      r.status = sf_detect_status menv.bodyText ∧
      r.message = sf_detect_message (sf_detect_status menv.bodyText) ∧
      ∃ suffix, r.urls = mytaxdc_agent.pre_urls menv ++ suffix) := by
  simp only [singlefile.pre_ok, Bool.and_eq_true, Bool.or_eq_true] at h1
  simp only [mytaxdc_agent.pre_ok, Bool.and_eq_true, Bool.or_eq_true] at h2
  obtain ⟨⟨ho, hv⟩, hf⟩ := h1
  obtain ⟨⟨⟨hgo, hmv⟩, hwa⟩, hmf⟩ := h2
  constructor
  · have hvv : (!env.validateOk && !env.validateRetryOk) = false := by
      rcases hv with h | h <;> simp [h]
    have hw : singlefile.clean_hands_workflow {env with cert := c} notice last4 =
        Except.ok { status := sf_detect_status env.bodyText,
                    message := sf_detect_message (sf_detect_status env.bodyText),
                    screenshot_path := none,
                    pdf_path := (cert_subflow notice env.ts c).2,
                    urls := singlefile.pre_urls env ++ (cert_subflow notice env.ts c).1,
                    notice := notice, last4 := last4 } := by
      unfold singlefile.clean_hands_workflow
      simp [ho, hvv, hf, singlefile.pre_urls]
    exact ⟨_, hw, rfl, rfl, (cert_subflow notice env.ts c).1, rfl⟩
  · have hvv : (!menv.validateOk && !menv.validateRetryOk) = false := by
      rcases hmv with h | h <;> simp [h]
    have hw : mytaxdc_agent.clean_hands_workflow {menv with cert := c} notice last4 =
        mytaxdc_agent.MTOutcome.done
          { status := sf_detect_status menv.bodyText,
            message := sf_detect_message (sf_detect_status menv.bodyText),
            screenshot_path := none,
            pdf_path := (mytax_cert_subflow notice menv.ts c).2,
            urls := mytaxdc_agent.pre_urls menv ++ (mytax_cert_subflow notice menv.ts c).1,
            notice := notice, last4 := last4 } := by
      unfold mytaxdc_agent.clean_hands_workflow
      simp [hgo, hvv, hwa, hmf, mytaxdc_agent.pre_urls]
    exact ⟨_, hw, rfl, rfl, (mytax_cert_subflow notice menv.ts c).1, rfl⟩

/-- C5 witness: a run that extracted the verdict "compliant" followed by a
forced certificate download failure still completes with that verdict. -/
theorem C5_cert_subflow_frame_witness :
    (∃ r, singlefile.clean_hands_workflow {sfEnvOkW with cert := certDownloadFail}
        "N12345" "0257" = Except.ok r ∧
      r.status = sf_detect_status sfEnvOkW.bodyText ∧
      r.message = sf_detect_message (sf_detect_status sfEnvOkW.bodyText) ∧
      ∃ suffix, r.urls = singlefile.pre_urls sfEnvOkW ++ suffix) ∧
    (∃ r, mytaxdc_agent.clean_hands_workflow {mtEnvOkW with cert := certDownloadFail}
        "N12345" "0257" = mytaxdc_agent.MTOutcome.done r ∧
      r.status = sf_detect_status mtEnvOkW.bodyText ∧
      r.message = sf_detect_message (sf_detect_status mtEnvOkW.bodyText) ∧
      ∃ suffix, r.urls = mytaxdc_agent.pre_urls mtEnvOkW ++ suffix) :=
  C5_cert_subflow_frame sfEnvOkW mtEnvOkW certDownloadFail "N12345" "0257" rfl rfl
